import Mathlib

/-!
# Verification of the `todo` CLI's resource/synchronization core

Shallow embedding of the Rust sources (`src/asana.rs`, `src/cache.rs`,
`src/focus.rs`, `src/commands/focus.rs` / `src/main.rs`) into Lean, together
with theorems settling the frozen specification claims.

Conventions of the embedding:
* Machine integers (`u32`, `u64`) become `Nat`; signed time arithmetic uses `Int`.
* Timestamps are plain integers counted in seconds; `Duration::minutes(5)`
  becomes the literal `300`.
* Network and filesystem effects are passed explicitly: each fallible external
  interaction (an HTTP response, a token-exchange outcome, the contents of the
  lock file) is a parameter of the embedded function, and the functions return
  the resulting value together with an explicit trace of the effects they
  perform.
-/

namespace Todo

/-! ## String primitives

Lean's built-in `String.startsWith`, `String.trim` and `String.toNat?` do
not reduce inside the kernel, so the embedding uses equivalent character
list operations for the string tests the code performs. -/

/-- `str::starts_with` over the characters of the strings. -/
def strStartsWith (s pre : String) : Bool :=
  pre.data.isPrefixOf s.data

/-- `str::trim`: strip leading and trailing whitespace characters. -/
def trimChars (cs : List Char) : List Char :=
  ((cs.dropWhile Char.isWhitespace).reverse.dropWhile Char.isWhitespace).reverse

/-- `str::parse::<u64>` on a trimmed string: a nonempty run of decimal
digits parses to its value (the unbounded `Nat` stands in for `u64`, and the
rarely used leading `+` sign is not modelled). -/
def parseU64 (cs : List Char) : Option Nat :=
  if !cs.isEmpty && cs.all Char.isDigit then
    some (cs.foldl (fun n c => n * 10 + (c.toNat - 48)) 0)
  else none

/-! ## Credentials and the authenticated client (`src/asana.rs`) -/

/-- `enum Credentials` from `src/asana.rs`: OAuth2 tokens or a static
personal access token. -/
inductive Credentials where
  | oauth2 (access_token : String) (refresh_token : Option String)
  | personalAccessToken (token : String)
deriving Repr, DecidableEq

/-- `enum ClientError` from `src/asana.rs`, plus a catch-all for the other
`anyhow` errors the client can propagate (context errors, decode errors). -/
inductive ClientError where
  | unableToRefreshAccessToken (msg : String)
  | otherError (msg : String)
deriving Repr, DecidableEq

/-- The relevant fields of `struct Client` from `src/asana.rs`: the current
credentials and the `last_refresh_attempt : Option<DateTime<Local>>` field
(the HTTP transport and base URL carry no state the claims depend on). -/
structure Client where
  credentials : Credentials
  last_refresh_attempt : Option Int
deriving Repr, DecidableEq

/-- `Client::new` from `src/asana.rs`: stores the credentials and initializes
`last_refresh_attempt` to `None`. -/
def Client.new (credentials : Credentials) : Client :=
  { credentials := credentials, last_refresh_attempt := none }

/-- The body of a successful OAuth2 token-exchange response: the new access
token, and optionally a rotated refresh token. -/
structure TokenResponse where
  access_token : String
  refresh_token : Option String
deriving Repr, DecidableEq

/-- `refresh_authorization` from `src/asana.rs`, with the outcome of the
network exchange passed in (`none` = the exchange failed). On success the
result keeps the old refresh token when the response carries none:
`token.refresh_token().unwrap_or(refresh_token)`. -/
def refresh_authorization (refresh_token : String) (exchange : Option TokenResponse) :
    Except ClientError Credentials :=
  match exchange with
  | none => .error (.otherError "could not exchange refresh token for an access token")
  | some token =>
      .ok (.oauth2 token.access_token (some (token.refresh_token.getD refresh_token)))

/-- Network-visible events performed by the client. -/
inductive NetEvent where
  | httpGet
  | tokenExchange
  | authorizationFlow
deriving Repr, DecidableEq

/-- `Client::refresh` from `src/asana.rs`. The outcomes of the two possible
external interactions are passed in: `exchange` for `refresh_authorization`
and `flow` for `execute_authorization_flow` (`none` = that interaction
failed). Returns the updated client (or the propagated error) and the trace
of authorization interactions performed. Note the source replaces only
`self.credentials` (and rebuilds the transport); `last_refresh_attempt` is
not written anywhere in `refresh`. -/
def Client.refresh (c : Client) (exchange : Option TokenResponse)
    (flow : Option Credentials) : Except ClientError Client × List NetEvent :=
  match c.credentials with
  | .oauth2 _ (some refresh_token) =>
      match refresh_authorization refresh_token exchange with
      | .error e => (.error e, [.tokenExchange])
      | .ok creds =>
          (.ok { credentials := creds, last_refresh_attempt := c.last_refresh_attempt },
           [.tokenExchange])
  | .oauth2 _ none =>
      match flow with
      | none => (.error (.otherError "authorization flow failed"), [.authorizationFlow])
      | some creds =>
          (.ok { credentials := creds, last_refresh_attempt := c.last_refresh_attempt },
           [.authorizationFlow])
  | .personalAccessToken _ =>
      (.error (.unableToRefreshAccessToken "not using OAuth2 flow"), [])

/-- An HTTP response to a GET, as `Client::get` consumes it: its status code
and the result of decoding its body as `DataWrapper<D::ResponseData>`
(`none` = the body does not decode). -/
structure HttpResponse (V : Type) where
  status : Nat
  body : Option V
deriving Repr, DecidableEq

/-- `response.json::<DataWrapper<..>>().await?.data`: decode the body or
propagate a decode error. -/
def decodeData {V : Type} (r : HttpResponse V) : Except ClientError V :=
  match r.body with
  | some v => .ok v
  | none => .error (.otherError "response body did not decode")

/-- The cooldown test in `Client::get`:
`self.last_refresh_attempt.is_some_and(|t| t + Duration::minutes(5) > Local::now())`. -/
def Client.lastRefreshWithinCooldown (c : Client) (now : Int) : Bool :=
  match c.last_refresh_attempt with
  | some t => decide (t + 300 > now)
  | none => false

/-- `Client::get` from `src/asana.rs`, with the network passed in: `resp1` is
the response to the first GET, `exchange`/`flow` are the reauthentication
outcomes (used only if a refresh happens), and `resp2` is the response to the
retried GET (used only if it is issued). Returns the decoded result or
error, the resulting client state, and the trace of network events. -/
def Client.get {V : Type} (c : Client) (now : Int) (resp1 : HttpResponse V)
    (exchange : Option TokenResponse) (flow : Option Credentials)
    (resp2 : HttpResponse V) :
    Except ClientError V × Client × List NetEvent :=
  if resp1.status = 401 then
    if c.lastRefreshWithinCooldown now then
      (.error (.unableToRefreshAccessToken "unauthorized"), c, [.httpGet])
    else
      match c.refresh exchange flow with
      | (.error e, evts) => (.error e, c, .httpGet :: evts)
      | (.ok c', evts) => (decodeData resp2, c', .httpGet :: evts ++ [.httpGet])
  else
    (decodeData resp1, c, [.httpGet])

/-! ## Focus day statistics (`src/focus.rs`) -/

/-- `struct FocusTaskCustomField` from `src/focus.rs`: a remote custom field,
a gid plus an optional numeric value. -/
structure FocusTaskCustomField where
  gid : String
  number_value : Option Nat
deriving Repr, DecidableEq

/-- `enum FocusDayStat` from `src/focus.rs`: the seven stat kinds, each
carrying an optional 0-9 value. -/
inductive FocusDayStat where
  | sleep (value : Option Nat)
  | energy (value : Option Nat)
  | flow (value : Option Nat)
  | hydration (value : Option Nat)
  | health (value : Option Nat)
  | satisfaction (value : Option Nat)
  | stress (value : Option Nat)
deriving Repr, DecidableEq

/-- `FocusDayStat::value` from `src/focus.rs`. -/
def FocusDayStat.value : FocusDayStat → Option Nat
  | .sleep v | .energy v | .flow v | .hydration v
  | .health v | .satisfaction v | .stress v => v

/-- `FocusDayStat::set_value` from `src/focus.rs`: replace the carried value,
keeping the kind. -/
def FocusDayStat.set_value : FocusDayStat → Option Nat → FocusDayStat
  | .sleep _, v => .sleep v
  | .energy _, v => .energy v
  | .flow _, v => .flow v
  | .hydration _, v => .hydration v
  | .health _, v => .health v
  | .satisfaction _, v => .satisfaction v
  | .stress _, v => .stress v

/-- `FocusDayStat::field_gid` from `src/focus.rs`: the fixed Asana custom
field gid for each stat kind. -/
def FocusDayStat.field_gid : FocusDayStat → String
  | .sleep _ => "1204172638538713"
  | .energy _ => "1204172638540767"
  | .flow _ => "1204172638540769"
  | .hydration _ => "1204172638540771"
  | .health _ => "1204172638540773"
  | .satisfaction _ => "1204172638540775"
  | .stress _ => "1204172638540777"

/-- `impl TryFrom<FocusTaskCustomField> for FocusDayStat` from `src/focus.rs`:
dispatch on the field gid; any other gid is the hard error
`"unknown focus day stat gid: {gid}"`. -/
def FocusDayStat.tryFromCustomField (custom_field : FocusTaskCustomField) :
    Except String FocusDayStat :=
  match custom_field.gid with
  | "1204172638538713" => .ok (.sleep custom_field.number_value)
  | "1204172638540767" => .ok (.energy custom_field.number_value)
  | "1204172638540769" => .ok (.flow custom_field.number_value)
  | "1204172638540771" => .ok (.hydration custom_field.number_value)
  | "1204172638540773" => .ok (.health custom_field.number_value)
  | "1204172638540775" => .ok (.satisfaction custom_field.number_value)
  | "1204172638540777" => .ok (.stress custom_field.number_value)
  | gid => .error ("unknown focus day stat gid: " ++ gid)

/-- `struct FocusDayStats` from `src/focus.rs`: one slot per stat kind. -/
structure FocusDayStats where
  sleep : FocusDayStat
  energy : FocusDayStat
  flow : FocusDayStat
  hydration : FocusDayStat
  health : FocusDayStat
  satisfaction : FocusDayStat
  stress : FocusDayStat
deriving Repr, DecidableEq

/-- `impl Default for FocusDayStats` from `src/focus.rs`: every stat present
with no value. -/
def FocusDayStats.default : FocusDayStats :=
  { sleep := .sleep none, energy := .energy none, flow := .flow none,
    hydration := .hydration none, health := .health none,
    satisfaction := .satisfaction none, stress := .stress none }

/-- The per-stat assignment used by both `FocusDayStats::set_stat` and the
`TryFrom<Vec<FocusTaskCustomField>>` loop in `src/focus.rs`: store the stat
into the slot matching its constructor. -/
def FocusDayStats.set_stat (stats : FocusDayStats) (stat : FocusDayStat) : FocusDayStats :=
  match stat with
  | .sleep _ => { stats with sleep := stat }
  | .energy _ => { stats with energy := stat }
  | .flow _ => { stats with flow := stat }
  | .hydration _ => { stats with hydration := stat }
  | .health _ => { stats with health := stat }
  | .satisfaction _ => { stats with satisfaction := stat }
  | .stress _ => { stats with stress := stat }

/-- `impl TryFrom<Vec<FocusTaskCustomField>> for FocusDayStats` from
`src/focus.rs`: fold the fields over the default stats; a single unknown gid
aborts the whole decode. -/
def FocusDayStats.tryFromCustomFields (custom_fields : List FocusTaskCustomField) :
    Except String FocusDayStats :=
  go FocusDayStats.default custom_fields
where
  go (stats : FocusDayStats) : List FocusTaskCustomField → Except String FocusDayStats
    | [] => .ok stats
    | custom_field :: rest =>
        match FocusDayStat.tryFromCustomField custom_field with
        | .error e => .error e
        | .ok stat => go (stats.set_stat stat) rest

/-! ## The advisory authorization lock (`src/cache.rs`) -/

/-- `enum AuthLockError` from `src/cache.rs`. -/
inductive AuthLockError where
  | alreadyLocked
  | ioError (msg : String)
deriving Repr, DecidableEq

/-- `is_lock_valid` from `src/cache.rs`, over the contents of the lock file
(`none` = the file is absent or unreadable, `some c` = it reads as `c`).
`now` is the current Unix timestamp in seconds, `AUTH_LOCK_MAX_AGE` is 300
seconds, and `now.saturating_sub(timestamp)` is `Nat` subtraction. The
embedding parses `contents.trim().parse::<u64>()` as `trimChars` followed by
`parseU64`. -/
def is_lock_valid (file : Option String) (now : Nat) : Bool :=
  match file with
  | none => false
  | some contents =>
      match parseU64 (trimChars contents.data) with
      | none => false
      | some timestamp => decide (now - timestamp < 300)

/-- `acquire_auth_lock` from `src/cache.rs`, over the lock-file state: if a
valid (fresh) lock exists, fail with `AlreadyLocked` leaving the file alone;
otherwise remove any stale file and create a fresh one holding the decimal
current timestamp. Returns the outcome and the resulting lock-file state. -/
def acquire_auth_lock (file : Option String) (now : Nat) :
    Except AuthLockError Unit × Option String :=
  if is_lock_valid file now then
    (.error .alreadyLocked, file)
  else
    (.ok (), some (Nat.repr now))

/-! ## Calendar dates (embedding of `chrono::NaiveDate` as the code uses it) -/

/-- A civil calendar date, standing in for `chrono::NaiveDate`. -/
structure Date where
  year : Int
  month : Int
  day : Int
deriving Repr, DecidableEq

/-- `NaiveDate` ordering (`<=`): chronological, i.e. lexicographic on
(year, month, day) for valid dates. -/
def Date.leb (a b : Date) : Bool :=
  decide (a.year < b.year ∨ (a.year = b.year ∧
    (a.month < b.month ∨ (a.month = b.month ∧ a.day ≤ b.day))))

/-- `NaiveDate` strict ordering (`<`). -/
def Date.ltb (a b : Date) : Bool :=
  decide (a.year < b.year ∨ (a.year = b.year ∧
    (a.month < b.month ∨ (a.month = b.month ∧ a.day < b.day))))

/-- Days since 1970-01-01 of a civil date (the standard civil-from-days
conversion that `chrono`'s date arithmetic realizes; divisions are the
truncating `Int.div`, matching the source algorithm's machine division). -/
def Date.toDays (d : Date) : Int :=
  let y : Int := if d.month ≤ 2 then d.year - 1 else d.year
  let era : Int := (if 0 ≤ y then y else y - 399).tdiv 400
  let yoe : Int := y - era * 400
  let mp : Int := (d.month + 9).emod 12
  let doy : Int := (153 * mp + 2).tdiv 5 + d.day - 1
  let doe : Int := yoe * 365 + yoe.tdiv 4 - yoe.tdiv 100 + doy
  era * 146097 + doe - 719468

/-- Civil date from days since 1970-01-01 (inverse conversion). -/
def Date.ofDays (days : Int) : Date :=
  let z : Int := days + 719468
  let era : Int := (if 0 ≤ z then z else z - 146096).tdiv 146097
  let doe : Int := z - era * 146097
  let yoe : Int := (doe - doe.tdiv 1460 + doe.tdiv 36524 - doe.tdiv 146096).tdiv 365
  let y : Int := yoe + era * 400
  let doy : Int := doe - (365 * yoe + yoe.tdiv 4 - yoe.tdiv 100)
  let mp : Int := (5 * doy + 2).tdiv 153
  let dd : Int := doy - (153 * mp + 2).tdiv 5 + 1
  let mm : Int := if mp < 10 then mp + 3 else mp - 9
  { year := if mm ≤ 2 then y + 1 else y, month := mm, day := dd }

/-- `Datelike::weekday(...).num_days_from_monday()`: 0 = Monday .. 6 = Sunday
(1970-01-01 was a Thursday, hence the offset 3). -/
def Date.numDaysFromMonday (d : Date) : Int :=
  (d.toDays + 3).emod 7

/-- `day.week(Weekday::Mon).first_day()` from `chrono`: the Monday on or
before `d`. -/
def Date.weekFirstDay (d : Date) : Date :=
  Date.ofDays (d.toDays - d.numDaysFromMonday)

/-- `day.week(Weekday::Mon).last_day()` from `chrono`: the Sunday ending the
Monday-start week of `d`. -/
def Date.weekLastDay (d : Date) : Date :=
  Date.ofDays (d.toDays - d.numDaysFromMonday + 6)

/-- Zero-padded decimal rendering used by `format("%Y-%m-%d")`. -/
def padNum (width : Nat) (n : Int) : String :=
  let s := n.natAbs.repr
  let s := String.mk (List.replicate (width - s.length) '0') ++ s
  if n < 0 then "-" ++ s else s

/-- `date.format("%Y-%m-%d")` from `chrono`. -/
def Date.format (d : Date) : String :=
  padNum 4 d.year ++ "-" ++ padNum 2 d.month ++ "-" ++ padNum 2 d.day

/-- `chrono::Weekday`'s `Display` (`"Mon"` .. `"Sun"`). -/
def Date.weekdayName (d : Date) : String :=
  match d.numDaysFromMonday.toNat with
  | 0 => "Mon" | 1 => "Tue" | 2 => "Wed" | 3 => "Thu" | 4 => "Fri" | 5 => "Sat"
  | _ => "Sun"

/-- Gregorian leap year test. -/
def isLeapYear (y : Int) : Bool :=
  decide ((y.emod 4 = 0 ∧ y.emod 100 ≠ 0) ∨ y.emod 400 = 0)

/-- Number of days in a month of a given year. -/
def daysInMonth (y m : Int) : Int :=
  if m = 2 then (if isLeapYear y then 29 else 28)
  else if m = 4 ∨ m = 6 ∨ m = 9 ∨ m = 11 then 30
  else 31

/-- Calendar validity, as `NaiveDate::parse_from_str("%Y-%m-%d")` enforces. -/
def isValidDate (d : Date) : Bool :=
  decide (1 ≤ d.month ∧ d.month ≤ 12 ∧ 1 ≤ d.day) && Date.leb d { d with day := daysInMonth d.year d.month }

/-- Decimal digit value of a character, if it is a digit. -/
def digitVal (c : Char) : Option Nat :=
  if c.isDigit then some (c.toNat - 48) else none

/-- Parse exactly ten characters `\d{4}-\d{2}-\d{2}` into a valid date: the
combination of the date-shaped regex capture groups and
`NaiveDate::parse_from_str(_, "%Y-%m-%d")` in `src/focus.rs`. -/
def parseDateChars : List Char → Option Date
  | [y1, y2, y3, y4, '-', m1, m2, '-', d1, d2] =>
      match digitVal y1, digitVal y2, digitVal y3, digitVal y4,
            digitVal m1, digitVal m2, digitVal d1, digitVal d2 with
      | some a, some b, some c, some d, some e, some f, some g, some h =>
          let date : Date :=
            { year := Int.ofNat (((a * 10 + b) * 10 + c) * 10 + d),
              month := Int.ofNat (e * 10 + f),
              day := Int.ofNat (g * 10 + h) }
          if isValidDate date then some date else none
      | _, _, _, _, _, _, _, _ => none
  | _ => none

/-! ## Focus weeks and days (`src/focus.rs`) -/

/-- `struct Section` from `src/focus.rs`: an Asana project section. -/
structure Section where
  gid : String
  name : String
deriving Repr, DecidableEq

/-- `FOCUS_WEEK_PATTERN` applied to a section name:
`^Daily Focuses \((?<from>\d{4}-\d{2}-\d{2}) to (?<to>\d{4}-\d{2}-\d{2})\)$`,
with the two captures run through the date parser. -/
def parseFocusWeekName (name : String) : Option (Date × Date) :=
  let cs := name.toList
  if cs.take 15 = "Daily Focuses (".toList then
    let rest := cs.drop 15
    if ((rest.drop 10).take 4 = " to ".toList ∧ rest.drop 24 = [')']) then
      match parseDateChars (rest.take 10), parseDateChars ((rest.drop 14).take 10) with
      | some fromDate, some toDate => some (fromDate, toDate)
      | _, _ => none
    else none
  else none

/-- `struct FocusWeek` from `src/focus.rs`. -/
structure FocusWeek where
  «section» : Section
  «from» : Date
  «to» : Date
deriving Repr, DecidableEq

/-- `impl TryFrom<Section> for FocusWeek` from `src/focus.rs`: a pattern or
date-parse failure errors with the section name as context. -/
def FocusWeek.tryFromSection (s : Section) : Except String FocusWeek :=
  match parseFocusWeekName s.name with
  | some (fromDate, toDate) => .ok { «section» := s, «from» := fromDate, «to» := toDate }
  | none => .error s.name

/-- `struct FocusTask` from `src/focus.rs`. -/
structure FocusTask where
  gid : String
  name : String
  notes : String
  custom_fields : Option (List FocusTaskCustomField)
deriving Repr, DecidableEq

/-- `struct FocusTaskSubtask` from `src/focus.rs`. -/
structure FocusTaskSubtask where
  gid : String
  name : String
  completed : Bool
deriving Repr, DecidableEq

/-- A `\w` word character as the focus-day regex uses it (the names the code
itself generates are ASCII). -/
def isWordChar (c : Char) : Bool :=
  c.isAlphanum || c = '_'

/-- `FOCUS_DAY_PATTERN` applied to a task name:
`^Daily Focus for \w+ \((?<date>\d{4}-\d{2}-\d{2})\)$`. -/
def parseFocusDayName (name : String) : Option Date :=
  let cs := name.toList
  if cs.take 16 = "Daily Focus for ".toList then
    let rest := cs.drop 16
    let w := rest.takeWhile isWordChar
    if w.length = 0 then none
    else
      let rest2 := rest.drop w.length
      if (rest2.take 2 = [' ', '('] ∧ rest2.drop 12 = [')']) then
        parseDateChars ((rest2.drop 2).take 10)
      else none
  else none

/-- `struct FocusDay` from `src/focus.rs`. -/
structure FocusDay where
  task : FocusTask
  date : Date
  stats : FocusDayStats
  diary : String
  subtasks : Option (List FocusTaskSubtask)
deriving Repr, DecidableEq

/-- `impl TryFrom<FocusTask> for FocusDay` from `src/focus.rs`: parse the
date out of the name, require custom fields to be present, and decode them
into stats (hard error on an unknown gid). -/
def FocusDay.tryFromTask (task : FocusTask) : Except String FocusDay :=
  match parseFocusDayName task.name with
  | none => .error task.name
  | some date =>
      match task.custom_fields with
      | none => .error "could not find custom fields"
      | some custom_fields =>
          match FocusDayStats.tryFromCustomFields custom_fields with
          | .error e => .error e
          | .ok stats =>
              .ok { task := task, date := date, stats := stats,
                    diary := task.notes, subtasks := none }

/-! ## Focus resolution (`get_focus_day` in `src/commands/focus.rs` and
`src/main.rs`) -/

/-- `ASANA_FOCUS_PROJECT_GID` from `src/main.rs`. -/
def ASANA_FOCUS_PROJECT_GID : String := "1200179899177794"

/-- `struct CreateSectionRequest` from `src/focus.rs`. -/
structure CreateSectionRequest where
  name : String
  insert_before : String
deriving Repr, DecidableEq

/-- `struct CreateSectionTaskRequestMembership` from `src/focus.rs`. -/
structure CreateSectionTaskRequestMembership where
  project : String
  «section» : String
deriving Repr, DecidableEq

/-- `struct CreateSectionTaskRequest` from `src/focus.rs`. -/
structure CreateSectionTaskRequest where
  name : String
  projects : List String
  memberships : List CreateSectionTaskRequestMembership
deriving Repr, DecidableEq

/-- `struct AddTaskToSectionRequest` from `src/focus.rs`. -/
structure AddTaskToSectionRequest where
  task : String
  insert_after : String
deriving Repr, DecidableEq

/-- A mutating API call issued during focus resolution. -/
inductive Mutation where
  | createSection (req : CreateSectionRequest)
  | createSectionTask (req : CreateSectionTaskRequest)
  | addTaskToSection (req : AddTaskToSectionRequest)
deriving Repr, DecidableEq

/-- The week-filtering pipeline in `get_focus_day`: keep sections whose name
starts with `"Daily Focuses"`, parse each into a `FocusWeek`, and drop (with
a logged warning) the ones that fail to parse. -/
def focusWeeksOf (sections : List Section) : List FocusWeek :=
  (sections.filter (fun s => strStartsWith s.name "Daily Focuses")).filterMap
    (fun s => (FocusWeek.tryFromSection s).toOption)

/-- The day-filtering pipeline in `get_focus_day`: keep tasks whose name
starts with `"Daily Focus for"`, parse each into a `FocusDay`, drop
failures. -/
def focusDaysOf (tasks : List FocusTask) : List FocusDay :=
  (tasks.filter (fun t => strStartsWith t.name "Daily Focus for")).filterMap
    (fun t => (FocusDay.tryFromTask t).toOption)

/-- The created week's name in `get_focus_day`:
`format!("Daily Focuses ({from} to {to})")` over
`day.week(Weekday::Mon)`'s first and last days. -/
def weekName (day : Date) : String :=
  "Daily Focuses (" ++ day.weekFirstDay.format ++ " to " ++ day.weekLastDay.format ++ ")"

/-- The created day's name in `get_focus_day`:
`format!("Daily Focus for {day} ({date})")`. -/
def dayName (day : Date) : String :=
  "Daily Focus for " ++ day.weekdayName ++ " (" ++ day.format ++ ")"

/-- The focus-day creation request built in `get_focus_day`. -/
def createDayRequest (day : Date) (current_week : FocusWeek) : CreateSectionTaskRequest :=
  { name := dayName day,
    projects := [ASANA_FOCUS_PROJECT_GID],
    memberships := [{ project := ASANA_FOCUS_PROJECT_GID,
                      «section» := current_week.«section».gid }] }


/-- `Iterator::max_by_key(|d| d.date)`: the maximal element by date, the
last one on ties. -/
def maxByDate (l : List FocusDay) : Option FocusDay :=
  match l with
  | [] => none
  | d :: rest => some (go d rest)
where
  go (m : FocusDay) : List FocusDay → FocusDay
    | [] => m
    | d :: rest => go (if Date.leb m.date d.date then d else m) rest

/-- `get_focus_day` from `src/commands/focus.rs` (duplicated in
`src/main.rs`), as a pure function over the fetched data: `sections` is the
response to the section fetch, `createdWeekSection` the decoded body of the
week-creation response (used only if a week is created), `tasks` the
response to the task fetch in the resolved week, and `createdDayTask` the
decoded body of the day-creation response (used only if a day is created).
Returns the resolved focus day or the propagated error, together with the
list of mutating calls issued, in order. -/
def get_focus_day (day : Date) (sections : List Section)
    (createdWeekSection : Section) (tasks : List FocusTask)
    (createdDayTask : FocusTask) : Except String FocusDay × List Mutation :=
  let focus_weeks := focusWeeksOf sections
  let weekStep : Except String FocusWeek × List Mutation :=
    match focus_weeks.find? (fun w => Date.leb w.«from» day && Date.leb day w.«to») with
    | some current_week => (.ok current_week, [])
    | none =>
        match focus_weeks.head? with
        | none => (.error "unable to get any focus weeks", [])
        | some first =>
            let req : CreateSectionRequest :=
              { name := weekName day, insert_before := first.«section».gid }
            (FocusWeek.tryFromSection createdWeekSection, [.createSection req])
  match weekStep with
  | (.error e, muts) => (.error e, muts)
  | (.ok current_week, muts) =>
      let focus_days := focusDaysOf tasks
      match focus_days.find? (fun d => d.date == day) with
      | some current_day => (.ok current_day, muts)
      | none =>
          let createReq := createDayRequest day current_week
          match FocusDay.tryFromTask createdDayTask with
          | .error e => (.error e, muts ++ [.createSectionTask createReq])
          | .ok current_day =>
              match maxByDate (focus_days.filter (fun d => Date.ltb d.date day)) with
              | some previous_closest_day =>
                  (.ok current_day,
                   muts ++ [.createSectionTask createReq,
                     .addTaskToSection { task := current_day.task.gid,
                                         insert_after := previous_closest_day.task.gid }])
              | none => (.ok current_day, muts ++ [.createSectionTask createReq])

/-! ## Concrete example data used in counterexamples and witnesses -/

/-- Two parseable focus-week sections fetched OUT of chronological order:
the first in fetch order is the later week. -/
def sectionsOutOfOrder : List Section :=
  [{ gid := "2", name := "Daily Focuses (2024-06-17 to 2024-06-23)" },
   { gid := "1", name := "Daily Focuses (2024-06-10 to 2024-06-16)" }]

/-- A parseable decoded body for a week-creation response. -/
def createdWeekSectionSample : Section :=
  { gid := "3", name := "Daily Focuses (2024-06-03 to 2024-06-09)" }

/-- A parseable decoded body for a day-creation response (for 2024-06-05). -/
def createdDayTaskSample : FocusTask :=
  { gid := "t9", name := "Daily Focus for Wed (2024-06-05)", notes := "",
    custom_fields := some [] }

/-- A single focus-week section whose range contains 2024-06-05. -/
def weekSectionsSample : List Section :=
  [{ gid := "w1", name := "Daily Focuses (2024-06-03 to 2024-06-09)" }]

/-- One parseable focus-day task dated strictly before 2024-06-05. -/
def tasksWithEarlierDay : List FocusTask :=
  [{ gid := "t0", name := "Daily Focus for Tue (2024-06-04)", notes := "",
     custom_fields := some [] }]

/-- The parsed form of the first (later) section of `sectionsOutOfOrder`. -/
def laterWeekSample : FocusWeek :=
  { «section» := { gid := "2", name := "Daily Focuses (2024-06-17 to 2024-06-23)" },
    «from» := { year := 2024, month := 6, day := 17 },
    «to» := { year := 2024, month := 6, day := 23 } }

/-- The parsed form of the second (earlier) section of `sectionsOutOfOrder`. -/
def earlierWeekSample : FocusWeek :=
  { «section» := { gid := "1", name := "Daily Focuses (2024-06-10 to 2024-06-16)" },
    «from» := { year := 2024, month := 6, day := 10 },
    «to» := { year := 2024, month := 6, day := 16 } }

/-- The parsed form of the single section of `weekSectionsSample`. -/
def parsedWeekSample : FocusWeek :=
  { «section» := { gid := "w1", name := "Daily Focuses (2024-06-03 to 2024-06-09)" },
    «from» := { year := 2024, month := 6, day := 3 },
    «to» := { year := 2024, month := 6, day := 9 } }

/-- The parsed form of `createdDayTaskSample`. -/
def parsedDaySample : FocusDay :=
  { task := createdDayTaskSample, date := { year := 2024, month := 6, day := 5 },
    stats := FocusDayStats.default, diary := "", subtasks := none }

/-- The parsed form of the single task of `tasksWithEarlierDay`. -/
def earlierDaySample : FocusDay :=
  { task := { gid := "t0", name := "Daily Focus for Tue (2024-06-04)", notes := "",
              custom_fields := some [] },
    date := { year := 2024, month := 6, day := 4 },
    stats := FocusDayStats.default, diary := "", subtasks := none }

/-!
## Theorems

One theorem per frozen claim, preceded by helper lemmas where needed.
-/

/-- Helper: a single `Client::refresh` call performs at most one
authorization interaction, and never an HTTP GET: its event trace is `[]`,
`[tokenExchange]` or `[authorizationFlow]`. -/
theorem refresh_events_cases (c : Client) (exchange : Option TokenResponse)
    (flow : Option Credentials) :
    (c.refresh exchange flow).2 = [] ∨
    (c.refresh exchange flow).2 = [.tokenExchange] ∨
    (c.refresh exchange flow).2 = [.authorizationFlow] := by
  unfold Client.refresh
  rcases c.credentials with ⟨a, _ | rt⟩ | t
  · cases flow <;> simp
  · cases hx : refresh_authorization rt exchange <;> simp [hx]
  · simp

/-- C1: if the first GET of `Client::get` returns HTTP 401 while the
client's `last_refresh_attempt` is set and less than 5 minutes old, the call
fails immediately with the distinct "unable to refresh access token" error,
performing no reauthentication and no second network request (the trace is
the single initial GET). -/
theorem get_cooldown_fails_immediately {V : Type} (c : Client) (now t : Int)
    (resp1 resp2 : HttpResponse V) (exchange : Option TokenResponse)
    (flow : Option Credentials)
    (h401 : resp1.status = 401) (hset : c.last_refresh_attempt = some t)
    (hfresh : t + 300 > now) :
    c.get now resp1 exchange flow resp2 =
      (.error (.unableToRefreshAccessToken "unauthorized"), c, [NetEvent.httpGet]) := by
  simp [Client.get, Client.lastRefreshWithinCooldown, hset, h401, hfresh]

/-- Witness for C1 at a concrete client state and 401 response. -/
theorem get_cooldown_fails_immediately_witness :
    (Client.mk (.oauth2 "a" (some "r")) (some 100)).get (V := Nat) 200
        { status := 401, body := none } (some { access_token := "b", refresh_token := none })
        none { status := 200, body := some 7 } =
      (.error (.unableToRefreshAccessToken "unauthorized"),
       Client.mk (.oauth2 "a" (some "r")) (some 100), [NetEvent.httpGet]) :=
  get_cooldown_fails_immediately _ 200 100 _ _ _ _ rfl rfl (by decide)

/-- C2 (code bug evidence): `Client::refresh` never writes
`last_refresh_attempt` — after a successful token-exchange refresh of a
freshly constructed client, the field is still `none`, not the attempt time
the claim (and the spec's "records the attempt timestamp regardless of
outcome") requires. -/
theorem refresh_does_not_record_attempt_timestamp :
    (Client.new (.oauth2 "old_access" (some "old_refresh"))).refresh
        (some { access_token := "new_access", refresh_token := some "new_refresh" }) none =
      (.ok (Client.mk (.oauth2 "new_access" (some "new_refresh")) none),
       [NetEvent.tokenExchange]) := rfl

/-- C3: on a first 401 outside the cooldown window, `Client::get` runs one
refresh and retries the GET exactly once: the second response is decoded and
returned (or its decode error propagated) whatever its status, the trace
holds exactly two GETs, and at most one authorization interaction. -/
theorem get_retries_once_after_refresh {V : Type} (c c' : Client) (now : Int)
    (resp1 resp2 : HttpResponse V) (exchange : Option TokenResponse)
    (flow : Option Credentials) (evts : List NetEvent)
    (h401 : resp1.status = 401)
    (hcool : c.lastRefreshWithinCooldown now = false)
    (hrefresh : c.refresh exchange flow = (.ok c', evts)) :
    c.get now resp1 exchange flow resp2 =
      (decodeData resp2, c', .httpGet :: evts ++ [.httpGet]) ∧
    (NetEvent.httpGet :: evts ++ [NetEvent.httpGet]).count NetEvent.httpGet = 2 ∧
    evts.length ≤ 1 := by
  have hev := refresh_events_cases c exchange flow
  rw [hrefresh] at hev
  simp only [] at hev
  refine ⟨by simp [Client.get, h401, hcool, hrefresh], ?_, ?_⟩ <;>
    rcases hev with h | h | h <;> subst h <;> simp

/-- Witness for C3: a 401 then a refresh then a decoded 200. -/
theorem get_retries_once_after_refresh_witness :
    (Client.mk (.oauth2 "a" (some "r")) none).get (V := Nat) 0
        { status := 401, body := none }
        (some { access_token := "b", refresh_token := some "r2" }) none
        { status := 200, body := some 42 } =
      (.ok 42, Client.mk (.oauth2 "b" (some "r2")) none,
       [NetEvent.httpGet, NetEvent.tokenExchange, NetEvent.httpGet]) :=
  (get_retries_once_after_refresh
    (Client.mk (.oauth2 "a" (some "r")) none)
    (Client.mk (.oauth2 "b" (some "r2")) none) 0
    { status := 401, body := none } { status := 200, body := some 42 }
    (some { access_token := "b", refresh_token := some "r2" }) none
    [NetEvent.tokenExchange] rfl rfl rfl).1

/-- C8: a successful refresh-token exchange yields an OAuth2 credential
carrying the new access token; when the response omits a refresh token the
old one is retained, and when it carries a new one that new token is
stored. -/
theorem refresh_authorization_token_rotation
    (old_refresh_token : String) (token : TokenResponse) :
    refresh_authorization old_refresh_token (some token) =
      .ok (.oauth2 token.access_token (some (token.refresh_token.getD old_refresh_token))) ∧
    (token.refresh_token = none →
      refresh_authorization old_refresh_token (some token) =
        .ok (.oauth2 token.access_token (some old_refresh_token))) ∧
    (∀ new_refresh_token, token.refresh_token = some new_refresh_token →
      refresh_authorization old_refresh_token (some token) =
        .ok (.oauth2 token.access_token (some new_refresh_token))) := by
  refine ⟨rfl, ?_, ?_⟩
  · intro h
    simp [refresh_authorization, h]
  · intro nrt h
    simp [refresh_authorization, h]

/-- Witness for C8: a response without a refresh token retains the old one. -/
theorem refresh_authorization_token_rotation_witness :
    refresh_authorization "old" (some { access_token := "acc", refresh_token := none }) =
      .ok (.oauth2 "acc" (some "old")) :=
  (refresh_authorization_token_rotation "old"
    { access_token := "acc", refresh_token := none }).2.1 rfl

/-- C9 counterexample: refreshing a client that holds a static personal
access token does NOT restart the interactive authorization flow as the
claim states — it fails with the "unable to refresh access token" error,
performing no authorization interaction at all, even when a fresh
authorization-flow outcome is available. -/
theorem refresh_pat_counterexample :
    (Client.new (.personalAccessToken "pat")).refresh
        (some { access_token := "acc", refresh_token := some "r" })
        (some (.oauth2 "acc2" (some "r2"))) =
      (.error (.unableToRefreshAccessToken "not using OAuth2 flow"), []) ∧
    NetEvent.authorizationFlow ∉
      ((Client.new (.personalAccessToken "pat")).refresh
        (some { access_token := "acc", refresh_token := some "r" })
        (some (.oauth2 "acc2" (some "r2")))).2 := by
  exact ⟨rfl, by simp [Client.refresh, Client.new]⟩

/-- C9 amended: `Client::refresh` dispatches on the credential: OAuth2 with a
refresh token exchanges it (the credential becoming exactly the exchange's
result); OAuth2 without one restarts the full interactive flow (the
credential becoming exactly the flow's result); a static personal access
token fails with the distinct "unable to refresh access token" error and no
interaction. In every successful case the credential is replaced wholesale. -/
theorem refresh_dispatch (c : Client) (exchange : Option TokenResponse)
    (flow : Option Credentials) :
    (∀ a rt, c.credentials = .oauth2 a (some rt) →
      (c.refresh exchange flow).2 = [.tokenExchange] ∧
      (c.refresh exchange flow).1 =
        (refresh_authorization rt exchange).map
          (fun creds => { credentials := creds,
                          last_refresh_attempt := c.last_refresh_attempt })) ∧
    (∀ a, c.credentials = .oauth2 a none →
      (c.refresh exchange flow).2 = [.authorizationFlow] ∧
      ∀ creds, flow = some creds →
        (c.refresh exchange flow).1 =
          .ok { credentials := creds,
                last_refresh_attempt := c.last_refresh_attempt }) ∧
    (∀ pat, c.credentials = .personalAccessToken pat →
      c.refresh exchange flow =
        (.error (.unableToRefreshAccessToken "not using OAuth2 flow"), [])) := by
  refine ⟨?_, ?_, ?_⟩
  · intro a rt h
    cases hx : refresh_authorization rt exchange <;>
      simp [Client.refresh, Except.map, h, hx]
  · intro a h
    refine ⟨by cases flow <;> simp [Client.refresh, h], ?_⟩
    intro creds hf
    simp [Client.refresh, h, hf]
  · intro pat h
    simp [Client.refresh, h]

/-- Witness for C9's amended claim at a concrete PAT client. -/
theorem refresh_dispatch_witness :
    (Client.new (.personalAccessToken "tok")).refresh none none =
      (.error (.unableToRefreshAccessToken "not using OAuth2 flow"), []) :=
  (refresh_dispatch (Client.new (.personalAccessToken "tok")) none none).2.2 "tok" rfl

/-- C7: the advisory auth lock excludes a second acquirer exactly while the
lock file holds a decimal timestamp under 5 minutes old (the attempt then
fails with the distinct `AlreadyLocked` error, leaving the file untouched);
an absent, unparsable, or stale (≥ 5-minute-old) lock lets acquisition
succeed, replacing any stale file with a fresh one holding the decimal
current timestamp. -/
theorem auth_lock_mutual_exclusion (file : Option String) (now : Nat) :
    (∀ contents timestamp, file = some contents →
        parseU64 (trimChars contents.data) = some timestamp → now - timestamp < 300 →
      acquire_auth_lock file now = (.error .alreadyLocked, file)) ∧
    (file = none →
      acquire_auth_lock file now = (.ok (), some (Nat.repr now))) ∧
    (∀ contents, file = some contents → parseU64 (trimChars contents.data) = none →
      acquire_auth_lock file now = (.ok (), some (Nat.repr now))) ∧
    (∀ contents timestamp, file = some contents →
        parseU64 (trimChars contents.data) = some timestamp → 300 ≤ now - timestamp →
      acquire_auth_lock file now = (.ok (), some (Nat.repr now))) := by
  refine ⟨?_, ?_, ?_, ?_⟩
  · intro contents timestamp hf hp hfresh
    simp [acquire_auth_lock, is_lock_valid, hf, hp, hfresh]
  · intro hf
    simp [acquire_auth_lock, is_lock_valid, hf]
  · intro contents hf hp
    simp [acquire_auth_lock, is_lock_valid, hf, hp]
  · intro contents timestamp hf hp hstale
    simp [acquire_auth_lock, is_lock_valid, hf, hp]
    omega

/-- Witness for C7: a fresh lock rejects a second acquire, and a stale one
is replaced. -/
theorem auth_lock_mutual_exclusion_witness :
    acquire_auth_lock (some "100") 200 = (.error .alreadyLocked, some "100") ∧
    acquire_auth_lock (some "100") 400 = (.ok (), some "400") :=
  ⟨(auth_lock_mutual_exclusion (some "100") 200).1 "100" 100 rfl (by decide) (by decide),
   (auth_lock_mutual_exclusion (some "100") 400).2.2.2 "100" 100 rfl (by decide) (by decide)⟩

/-- C6: decoding a custom field into a stat is total over exactly the seven
fixed gids — each decodes to its named kind carrying the field's value, the
kind-to-gid map `field_gid` is the inverse of that decoding, and any other
gid fails with the distinct "unknown focus day stat gid" error. -/
theorem stats_decode_total (custom_field : FocusTaskCustomField) :
    (∀ v, FocusDayStat.tryFromCustomField { gid := "1204172638538713", number_value := v } =
      .ok (.sleep v)) ∧
    (∀ v, FocusDayStat.tryFromCustomField { gid := "1204172638540767", number_value := v } =
      .ok (.energy v)) ∧
    (∀ v, FocusDayStat.tryFromCustomField { gid := "1204172638540769", number_value := v } =
      .ok (.flow v)) ∧
    (∀ v, FocusDayStat.tryFromCustomField { gid := "1204172638540771", number_value := v } =
      .ok (.hydration v)) ∧
    (∀ v, FocusDayStat.tryFromCustomField { gid := "1204172638540773", number_value := v } =
      .ok (.health v)) ∧
    (∀ v, FocusDayStat.tryFromCustomField { gid := "1204172638540775", number_value := v } =
      .ok (.satisfaction v)) ∧
    (∀ v, FocusDayStat.tryFromCustomField { gid := "1204172638540777", number_value := v } =
      .ok (.stress v)) ∧
    (∀ (s : FocusDayStat) (v : Option Nat),
      FocusDayStat.tryFromCustomField { gid := s.field_gid, number_value := v } =
        .ok (s.set_value v)) ∧
    (custom_field.gid ∉
        ["1204172638538713", "1204172638540767", "1204172638540769",
         "1204172638540771", "1204172638540773", "1204172638540775",
         "1204172638540777"] →
      FocusDayStat.tryFromCustomField custom_field =
        .error ("unknown focus day stat gid: " ++ custom_field.gid)) := by
  refine ⟨fun v => rfl, fun v => rfl, fun v => rfl, fun v => rfl, fun v => rfl,
    fun v => rfl, fun v => rfl, ?_, ?_⟩
  · intro s v
    cases s <;> rfl
  · intro h
    rcases custom_field with ⟨gid, v⟩
    simp only [List.mem_cons, List.not_mem_nil, or_false, not_or] at h
    unfold FocusDayStat.tryFromCustomField
    split <;> simp_all

/-- Witness for C6: an unknown gid is a hard decode error. -/
theorem stats_decode_total_witness :
    FocusDayStat.tryFromCustomField { gid := "999", number_value := some 3 } =
      .error "unknown focus day stat gid: 999" :=
  (stats_decode_total { gid := "999", number_value := some 3 }).2.2.2.2.2.2.2.2
    (by decide)

/-- Helper: `leb` is reflexive. -/
theorem Date.leb_refl (a : Date) : a.leb a = true := by
  simp [Date.leb]

/-- Helper: `leb` is total. -/
theorem Date.leb_total (a b : Date) : a.leb b = true ∨ b.leb a = true := by
  simp only [Date.leb, decide_eq_true_eq]
  omega

/-- Helper: `leb` is transitive. -/
theorem Date.leb_trans {a b c : Date} (h1 : a.leb b = true) (h2 : b.leb c = true) :
    a.leb c = true := by
  simp only [Date.leb, decide_eq_true_eq] at *
  omega

/-- Helper: the fold inside `maxByDate` returns its accumulator or a list
element, and that element's date bounds the accumulator's and every list
element's date. -/
theorem maxByDate_go_spec (m : FocusDay) (l : List FocusDay) :
    (maxByDate.go m l = m ∨ maxByDate.go m l ∈ l) ∧
    Date.leb m.date (maxByDate.go m l).date = true ∧
    ∀ x ∈ l, Date.leb x.date (maxByDate.go m l).date = true := by
  induction l generalizing m with
  | nil => exact ⟨Or.inl rfl, Date.leb_refl _, by simp⟩
  | cons d rest ih =>
    simp only [maxByDate.go]
    by_cases hmd : Date.leb m.date d.date = true
    · rw [if_pos hmd]
      obtain ⟨hmem, hle, hall⟩ := ih d
      refine ⟨?_, Date.leb_trans hmd hle, ?_⟩
      · rcases hmem with h | h
        · exact Or.inr (by simp [h])
        · exact Or.inr (List.mem_cons_of_mem _ h)
      · intro x hx
        rcases List.mem_cons.mp hx with h | h
        · subst h; exact hle
        · exact hall x h
    · have hdm : Date.leb d.date m.date = true := by
        rcases Date.leb_total m.date d.date with h | h
        · exact absurd h hmd
        · exact h
      rw [if_neg hmd]
      obtain ⟨hmem, hle, hall⟩ := ih m
      refine ⟨?_, hle, ?_⟩
      · rcases hmem with h | h
        · exact Or.inl h
        · exact Or.inr (List.mem_cons_of_mem _ h)
      · intro x hx
        rcases List.mem_cons.mp hx with h | h
        · subst h; exact Date.leb_trans hdm hle
        · exact hall x h

/-- Helper: `max_by_key(|d| d.date)` returns a list element whose date
bounds every element's date. -/
theorem maxByDate_spec {l : List FocusDay} {m : FocusDay}
    (h : maxByDate l = some m) :
    m ∈ l ∧ ∀ x ∈ l, Date.leb x.date m.date = true := by
  cases l with
  | nil => simp [maxByDate] at h
  | cons d rest =>
    simp only [maxByDate, Option.some.injEq] at h
    obtain ⟨hmem, hle, hall⟩ := maxByDate_go_spec d rest
    subst h
    refine ⟨?_, ?_⟩
    · rcases hmem with h | h
      · rw [h]
        exact List.mem_cons_self _ _
      · exact List.mem_cons_of_mem _ h
    · intro x hx
      rcases List.mem_cons.mp hx with h | h
      · subst h; exact hle
      · exact hall x h

/-- Helper: `max_by_key` over a nonempty list yields an element. -/
theorem maxByDate_isSome {l : List FocusDay} (h : l ≠ []) :
    ∃ m, maxByDate l = some m := by
  cases l with
  | nil => exact absurd rfl h
  | cons d rest => exact ⟨_, rfl⟩

/-- C10: if the fetched sections yield no parseable focus weeks at all, no
week can contain the target date and `get_focus_day` cannot even create one:
the creation branch requires an existing first week for `insert_before`, so
the whole resolution aborts with the "unable to get any focus weeks" error,
with no mutation issued and no focus day returned. -/
theorem no_focus_weeks_aborts (day : Date) (sections : List Section)
    (createdWeekSection : Section) (tasks : List FocusTask)
    (createdDayTask : FocusTask)
    (h : focusWeeksOf sections = []) :
    get_focus_day day sections createdWeekSection tasks createdDayTask =
      (.error "unable to get any focus weeks", []) := by
  simp [get_focus_day, h]

/-- Witness for C10 with a fetched section list carrying no focus week. -/
theorem no_focus_weeks_aborts_witness :
    get_focus_day { year := 2024, month := 6, day := 5 }
        [{ gid := "g", name := "Not a focus section" }]
        createdWeekSectionSample [] createdDayTaskSample =
      (.error "unable to get any focus weeks", []) :=
  no_focus_weeks_aborts _ _ _ _ _ rfl

/-- C4 counterexample: with two parseable weeks fetched out of chronological
order (the later week first) and a target date contained in neither, the
issued creation request's `insert_before` is the first FETCHED week's gid
("2"), not the gid of the chronologically-earliest known week ("1"). -/
theorem week_insert_before_counterexample :
    (focusWeeksOf sectionsOutOfOrder).map
        (fun w => (w.«section».gid, w.«from»)) =
      [("2", { year := 2024, month := 6, day := 17 }),
       ("1", { year := 2024, month := 6, day := 10 })] ∧
    Date.ltb { year := 2024, month := 6, day := 10 }
        { year := 2024, month := 6, day := 17 } = true ∧
    ("2" : String) ≠ "1" ∧
    (get_focus_day { year := 2024, month := 6, day := 5 } sectionsOutOfOrder
        createdWeekSectionSample [] createdDayTaskSample).2.head? =
      some (.createSection { name := "Daily Focuses (2024-06-03 to 2024-06-09)",
                             insert_before := "2" }) := by
  exact ⟨rfl, rfl, by decide, rfl⟩

/-- C4 amended: when no parsed focus week's range contains the target date
and the parsed week list is nonempty, the first mutation `get_focus_day`
issues is the creation of a section named with the bounds of the date's
Monday-start week (`weekName`), whose `insert_before` is the section gid of
the first parsed week in fetch order — the chronologically-earliest week
only under the fetch-order assumption the spec flags. -/
theorem week_creation_inserts_before_first_fetched (day : Date)
    (sections : List Section) (createdWeekSection : Section)
    (tasks : List FocusTask) (createdDayTask : FocusTask)
    (first : FocusWeek) (rest : List FocusWeek)
    (hweeks : focusWeeksOf sections = first :: rest)
    (hnone : (focusWeeksOf sections).find?
        (fun w => Date.leb w.«from» day && Date.leb day w.«to») = none) :
    (get_focus_day day sections createdWeekSection tasks createdDayTask).2.head? =
      some (.createSection { name := weekName day,
                             insert_before := first.«section».gid }) := by
  rw [hweeks] at hnone
  simp only [get_focus_day, hweeks, hnone, List.head?_cons]
  cases hparse : FocusWeek.tryFromSection createdWeekSection with
  | error e => rfl
  | ok cw =>
      cases hfd : (focusDaysOf tasks).find? (fun d => d.date == day) with
      | some d0 => rfl
      | none =>
          cases hdt : FocusDay.tryFromTask createdDayTask with
          | error e => rfl
          | ok cd =>
              cases hmx : maxByDate ((focusDaysOf tasks).filter
                  (fun d => Date.ltb d.date day)) with
              | some p => rfl
              | none => rfl

/-- Witness for C4's amended claim at the out-of-order week list. -/
theorem week_creation_inserts_before_first_fetched_witness :
    (get_focus_day { year := 2024, month := 6, day := 5 } sectionsOutOfOrder
        createdWeekSectionSample [] createdDayTaskSample).2.head? =
      some (.createSection
        { name := weekName { year := 2024, month := 6, day := 5 },
          insert_before := "2" }) :=
  week_creation_inserts_before_first_fetched
    { year := 2024, month := 6, day := 5 } sectionsOutOfOrder
    createdWeekSectionSample [] createdDayTaskSample
    laterWeekSample [earlierWeekSample] rfl rfl

/-- C5: when the resolved week holds no focus day for the target date and
the created record parses, then: if some existing focus day is dated
strictly before the target, exactly one "insert after" mutation follows the
creation, referencing the task gid of a maximal earlier-dated day (the
chronologically-nearest); if no earlier-dated sibling exists, the creation
is the only mutation. -/
theorem day_ordering_mutation (day : Date) (sections : List Section)
    (createdWeekSection : Section) (tasks : List FocusTask)
    (createdDayTask : FocusTask) (current_week : FocusWeek)
    (current_day : FocusDay)
    (hweek : (focusWeeksOf sections).find?
        (fun w => Date.leb w.«from» day && Date.leb day w.«to») = some current_week)
    (hnoday : (focusDaysOf tasks).find? (fun d => d.date == day) = none)
    (hparse : FocusDay.tryFromTask createdDayTask = .ok current_day) :
    ((∃ d ∈ focusDaysOf tasks, Date.ltb d.date day = true) →
      ∃ p ∈ focusDaysOf tasks, Date.ltb p.date day = true ∧
        (∀ q ∈ focusDaysOf tasks, Date.ltb q.date day = true →
          Date.leb q.date p.date = true) ∧
        get_focus_day day sections createdWeekSection tasks createdDayTask =
          (.ok current_day,
           [.createSectionTask (createDayRequest day current_week),
            .addTaskToSection { task := current_day.task.gid,
                                insert_after := p.task.gid }])) ∧
    ((∀ d ∈ focusDaysOf tasks, Date.ltb d.date day = false) →
      get_focus_day day sections createdWeekSection tasks createdDayTask =
        (.ok current_day,
         [.createSectionTask (createDayRequest day current_week)])) := by
  constructor
  · rintro ⟨d0, hd0mem, hd0lt⟩
    have hne : (focusDaysOf tasks).filter (fun d => Date.ltb d.date day) ≠ [] := by
      intro hnil
      have hmem : d0 ∈ (focusDaysOf tasks).filter (fun d => Date.ltb d.date day) :=
        List.mem_filter.mpr ⟨hd0mem, hd0lt⟩
      rw [hnil] at hmem
      simp at hmem
    obtain ⟨p, hp⟩ := maxByDate_isSome hne
    obtain ⟨hpmem, hpmax⟩ := maxByDate_spec hp
    have hpmem' := List.mem_filter.mp hpmem
    refine ⟨p, hpmem'.1, hpmem'.2, ?_, ?_⟩
    · intro q hq hqlt
      exact hpmax q (List.mem_filter.mpr ⟨hq, hqlt⟩)
    · simp [get_focus_day, hweek, hnoday, hparse, hp]
  · intro hnolt
    have hmnone : maxByDate ((focusDaysOf tasks).filter
        (fun d => Date.ltb d.date day)) = none := by
      have hnil : (focusDaysOf tasks).filter (fun d => Date.ltb d.date day) = [] := by
        apply List.filter_eq_nil_iff.mpr
        intro a ha
        simp [hnolt a ha]
      rw [hnil]
      rfl
    simp [get_focus_day, hweek, hnoday, hparse, hmnone]

/-- Witness for C5: one earlier-dated sibling exists, so creation is
followed by exactly one "insert after" mutation referencing it. -/
theorem day_ordering_mutation_witness :
    ∃ p ∈ focusDaysOf tasksWithEarlierDay,
      Date.ltb p.date { year := 2024, month := 6, day := 5 } = true ∧
      (∀ q ∈ focusDaysOf tasksWithEarlierDay,
        Date.ltb q.date { year := 2024, month := 6, day := 5 } = true →
          Date.leb q.date p.date = true) ∧
      get_focus_day { year := 2024, month := 6, day := 5 } weekSectionsSample
          createdWeekSectionSample tasksWithEarlierDay createdDayTaskSample =
        (.ok parsedDaySample,
         [.createSectionTask
            (createDayRequest { year := 2024, month := 6, day := 5 } parsedWeekSample),
          .addTaskToSection { task := parsedDaySample.task.gid,
                              insert_after := p.task.gid }]) :=
  (day_ordering_mutation { year := 2024, month := 6, day := 5 } weekSectionsSample
      createdWeekSectionSample tasksWithEarlierDay createdDayTaskSample
      parsedWeekSample parsedDaySample rfl rfl rfl).1
    ⟨earlierDaySample, by decide, rfl⟩

end Todo
